import Mathlib

/-!
Verification development for the StreamLoop supervisor runtime.

The definitions below are a shallow embedding of the core supervisor
components, translated from the TypeScript source:

* `StateMan` / `PersistedState` — the persisted state store
  (`src/server/state.ts`): debounced, mergeable state with an explicit
  in-memory copy, an on-disk copy, and a pending-debounce flag.
* `DiscordNotifier` state, `send` and `flush` — the batched webhook
  notifier (`src/server/discord.ts`).
* `EngineState` and the recovery engine handlers
  (`src/server/recovery.ts`): heartbeat handling with stall / quality /
  paused / non-playing detection, playback-error handling, the skip and
  playlist-advance sequencer, the player-connect handler and the
  escalation steps.
* `ObsRestartState` — the stream-drop restart sub-state-machine of the
  OBS client (`src/server/obs-client.ts`).
* `WsState` — the single-client player WebSocket transport
  (`src/server/websocket.ts`).

Modelling conventions: JS numbers carrying times are rationals (`ℚ`),
counters and indices read from the player are `Nat`, the persisted
`playlistIndex` is `Int` (the state file is parsed without range
validation, so negative values are representable).  Wall-clock reads
(`Date.now()`, `updatedAt`, uptime) and the log / bounded event log are
elided; timers are modelled as explicit optional pending entries and
`fire…` functions.  Effects (socket sends, webhook POSTs, OBS RPC
calls, notifications) are reified as action lists in the order the
source emits them.  JS `%` on integers is truncated remainder
(`Int.tmod`).
-/

namespace StreamLoop

/-! ### Basic data model (src/server/types.ts) -/

structure PlaylistEntry where
  id : String
  name : Option String
deriving DecidableEq

structure AppConfig where
  playlists : List PlaylistEntry
  maxConsecutiveErrors : Nat
  recoveryDelayMs : Nat
  heartbeatTimeoutMs : Nat
  qualityRecoveryEnabled : Bool
  minQuality : String
  qualityRecoveryDelayMs : Nat
deriving DecidableEq

/-- Persisted playback position (`PersistedState` in types.ts).
`updatedAt` (a wall-clock timestamp) is elided. `playlistIndex` is `Int`
because the state file is loaded without range validation. -/
structure PersistedState where
  playlistIndex : Int
  videoIndex : Nat
  videoId : String
  videoTitle : String
  currentTime : ℚ
  videoDuration : ℚ
  nextVideoId : String
deriving DecidableEq

/-! ### State store (src/server/state.ts)

`StateManager.update` merges a partial record into the in-memory copy and
starts/extends a 2 s debounced write; `flush` cancels the debounce and
writes immediately.  We model the manager as the in-memory copy, the
on-disk copy, and whether a debounced write is pending. -/

structure StatePatch where
  playlistIndex : Option Int
  videoIndex : Option Nat
  videoId : Option String
  videoTitle : Option String
  currentTime : Option ℚ
  videoDuration : Option ℚ
  nextVideoId : Option String
deriving DecidableEq

def StatePatch.empty : StatePatch :=
  { playlistIndex := Option.none, videoIndex := Option.none, videoId := Option.none,
    videoTitle := Option.none, currentTime := Option.none, videoDuration := Option.none,
    nextVideoId := Option.none }

def applyPatch (s : PersistedState) (p : StatePatch) : PersistedState :=
  { playlistIndex := p.playlistIndex.getD s.playlistIndex,
    videoIndex := p.videoIndex.getD s.videoIndex,
    videoId := p.videoId.getD s.videoId,
    videoTitle := p.videoTitle.getD s.videoTitle,
    currentTime := p.currentTime.getD s.currentTime,
    videoDuration := p.videoDuration.getD s.videoDuration,
    nextVideoId := p.nextVideoId.getD s.nextVideoId }

structure StateMan where
  current : PersistedState
  disk : PersistedState
  debouncePending : Bool
deriving DecidableEq

/-- Model of `StateManager.update`: merge the partial fields, schedule a debounced
write (coalescing with any pending one). -/
def StateMan.update (sm : StateMan) (p : StatePatch) : StateMan :=
  { current := applyPatch sm.current p, disk := sm.disk, debouncePending := true }

/-- Model of `StateManager.flush`: cancel the debounce timer and write immediately. -/
def StateMan.flush (sm : StateMan) : StateMan :=
  { current := sm.current, disk := sm.current, debouncePending := false }

/-! ### Notifier (src/server/discord.ts) -/

inductive Level
  | info
  | warn
  | error
deriving DecidableEq

def levelPriority : Level → Nat
  | Level.info => 0
  | Level.warn => 1
  | Level.error => 2

def levelColor : Level → Nat
  | Level.info => 3447003
  | Level.warn => 16776960
  | Level.error => 15158332

def levelEmoji : Level → String
  | Level.info => "ℹ️"
  | Level.warn => "⚠️"
  | Level.error => "🚨"

structure EmbedField where
  name : String
  value : String
  inline : Option Bool
deriving DecidableEq

structure QueuedMessage where
  content : String
  level : Level
  fields : Option (List EmbedField)
deriving DecidableEq

/-- Constructor-time configuration of `DiscordNotifier`.  `uptimeMs` (the
`getUptime` callback) is passed explicitly to `flush`. -/
structure NotifierCfg where
  webhookUrl : String
  botName : String
  avatarUrl : String
  rolePing : String
  adminUrl : String
  appVersion : String
deriving DecidableEq

structure NotifierState where
  queue : List QueuedMessage
  flushTimer : Bool
deriving DecidableEq

structure Embed where
  title : String
  description : String
  color : Nat
  footerText : String
  fields : Option (List EmbedField)
deriving DecidableEq

structure WebhookBody where
  content : Option String
  username : Option String
  avatarUrl : Option String
  embeds : List Embed
deriving DecidableEq

def NotifierCfg.enabled (cfg : NotifierCfg) : Bool :=
  0 < cfg.webhookUrl.length

def formatUptime (ms : Nat) : String :=
  let s := ms / 1000
  let h := s / 3600
  let m := (s % 3600) / 60
  if 0 < h then s!"{h}h {m}m"
  else if 0 < m then
    let r := s % 60
    s!"{m}m {r}s"
  else s!"{s}s"

def makeFooterText (cfg : NotifierCfg) (uptimeMs : Nat) (extraText : Option String) : String :=
  let parts :=
    (if cfg.adminUrl ≠ "" then ["Dashboard: " ++ cfg.adminUrl] else [])
      ++ ["Uptime: " ++ formatUptime uptimeMs, "v" ++ cfg.appVersion]
  let footer := String.intercalate " | " parts
  match extraText with
  | some e => e ++ " | " ++ footer
  | Option.none => footer

/-- The reduce over the queue computing the highest queued level
(initial value `info`). -/
def highestLevel (messages : List QueuedMessage) : Level :=
  messages.foldl
    (fun mx m => if levelPriority mx < levelPriority m.level then m.level else mx)
    Level.info

/-- The embed description: all drained messages joined by blank lines,
each prefixed with its level emoji when more than one is batched. -/
def renderDescription (messages : List QueuedMessage) : String :=
  let isBatched := 1 < messages.length
  String.intercalate "\n\n"
    (messages.map (fun m => (if isBatched then levelEmoji m.level ++ " " else "") ++ m.content))

def roleMention (rolePing : String) : String :=
  "<@&" ++ rolePing ++ ">"

/-- The single embed built by `flush` from the drained messages. -/
def flushEmbed (cfg : NotifierCfg) (uptimeMs : Nat) (messages : List QueuedMessage) : Embed :=
  let hl := highestLevel messages
  let isBatched := 1 < messages.length
  let embedFields : Option (List EmbedField) :=
    match messages with
    | [m] => m.fields
    | _ => Option.none
  let n := messages.length
  let footerExtra : Option String := if isBatched then some s!"{n} events" else Option.none
  { title := levelEmoji hl ++ " StreamLoop",
    description := renderDescription messages,
    color := levelColor hl,
    footerText := makeFooterText cfg uptimeMs footerExtra,
    fields := embedFields }

/-- The single webhook body built by `flush` from the drained messages. -/
def flushBody (cfg : NotifierCfg) (uptimeMs : Nat) (messages : List QueuedMessage) :
    WebhookBody :=
  let hl := highestLevel messages
  { content :=
      if hl = Level.error ∧ cfg.rolePing ≠ "" then some (roleMention cfg.rolePing)
      else Option.none,
    username := if cfg.botName ≠ "" then some cfg.botName else Option.none,
    avatarUrl := if cfg.avatarUrl ≠ "" then some cfg.avatarUrl else Option.none,
    embeds := [flushEmbed cfg uptimeMs messages] }

/-- Model of `DiscordNotifier.flush`: cancel the debounce timer, drain the whole
queue into a single webhook body (or none when the queue is empty). -/
def flush (cfg : NotifierCfg) (uptimeMs : Nat) (st : NotifierState) :
    NotifierState × Option WebhookBody :=
  let st1 : NotifierState := { st with flushTimer := false }
  if st1.queue = [] then (st1, Option.none)
  else ({ st1 with queue := [] }, some (flushBody cfg uptimeMs st1.queue))

/-- Model of `DiscordNotifier.send`: enqueue; `error` level flushes immediately,
other levels start the single debounce timer if it is not running. -/
def send (cfg : NotifierCfg) (uptimeMs : Nat) (st : NotifierState)
    (content : String) (level : Level) (fields : Option (List EmbedField)) :
    NotifierState × Option WebhookBody :=
  if !cfg.enabled then (st, Option.none)
  else
    let st1 : NotifierState := { st with queue := st.queue ++ [⟨content, level, fields⟩] }
    if level = Level.error then flush cfg uptimeMs st1
    else if st1.flushTimer then (st1, Option.none)
    else ({ st1 with flushTimer := true }, Option.none)

/-- Firing of the 5-second debounce timer (`setTimeout(() => this.flush(), DEBOUNCE_MS)`). -/
def fireDebounce (cfg : NotifierCfg) (uptimeMs : Nat) (st : NotifierState) :
    NotifierState × Option WebhookBody :=
  flush cfg uptimeMs st

/-! ### Recovery engine (src/server/recovery.ts) -/

inductive RecoveryStep
  | none
  | retryCurrent
  | refreshSource
  | toggleVisibility
  | criticalAlert
deriving DecidableEq

/-- The string value of the `RecoveryStep` enum (types.ts). -/
def RecoveryStep.str : RecoveryStep → String
  | RecoveryStep.none => "none"
  | RecoveryStep.retryCurrent => "retryCurrent"
  | RecoveryStep.refreshSource => "refreshSource"
  | RecoveryStep.toggleVisibility => "toggleVisibility"
  | RecoveryStep.criticalAlert => "criticalAlert"

/-- What a pending `recoveryTimer` does when it fires: either the guarded
transition to the next escalation step, or the 60 s full-sequence restart
armed by `CriticalAlert`. -/
inductive RecoveryTimerKind
  | nextStep (step : RecoveryStep)
  | restartSequence
deriving DecidableEq

/-- Effects emitted by the engine, in source order: player socket sends,
notifier calls, OBS calls, and the delayed lone `retryCurrent` scheduled
by the error handler. -/
inductive EngineAction
  | sendLoadPlaylist (playlistId : String) (index : Nat) (loop : Bool) (startTime : Option ℚ)
  | sendRetryCurrent
  | sendResume
  | sendSkip (index : Nat)
  | notifyRecovery (message : String)
  | notifyResume (videoIndex : Nat) (videoId : String)
  | notifyError (videoIndex : Nat) (videoId : String) (errorCode : Nat) (attempt : Nat)
  | notifySkip (videoIndex : Nat) (videoId : String) (reason : String)
  | notifyCritical (message : String)
  | scheduleRetryCurrent (delayMs : Nat)
  | callRefreshBrowserSource
  | callToggleBrowserSource
deriving DecidableEq

/-- Engine-private mutable state (`RecoveryEngine` fields).  Wall-clock
shadows (`lastHeartbeatAt`, `startedAt`) and the bounded event log are
elided; the `StateManager` reference held by the engine is embedded so that state
writes are visible. -/
structure EngineState where
  consecutiveErrors : Nat
  recoveryStep : RecoveryStep
  recoveryTimer : Option (RecoveryTimerKind × Nat)
  totalVideos : Nat
  consecutivePausedHeartbeats : Nat
  lastProgressTime : ℚ
  stalledHeartbeats : Nat
  playbackQuality : String
  lowQualityHeartbeats : Nat
  nonPlayingHeartbeats : Nat
  stateMan : StateMan
deriving DecidableEq

def SKIP_ERROR_CODES : List Nat := [100, 101, 150]

def STALL_THRESHOLD : Nat := 3

def NON_PLAYING_THRESHOLD : Nat := 6

def QUALITY_RANKS : List (String × Nat) :=
  [("small", 0), ("medium", 1), ("large", 2), ("hd720", 3),
   ("hd1080", 4), ("hd1440", 5), ("hd2160", 6), ("highres", 7)]

def qualityRank (q : String) : Option Nat :=
  QUALITY_RANKS.lookup q

structure HeartbeatMsg where
  videoIndex : Nat
  videoId : String
  videoTitle : String
  playerState : Int
  currentTime : ℚ
  videoDuration : ℚ
  nextVideoId : String
  playbackQuality : String
deriving DecidableEq

inductive PlayerMessage
  | ready
  | heartbeat (m : HeartbeatMsg)
  | stateChange (playerState : Int) (videoIndex : Nat) (videoId : String) (videoTitle : String)
  | playlistLoaded (totalVideos : Nat)
  | error (errorCode : Nat) (videoIndex : Nat) (videoId : String)
deriving DecidableEq

/-- The ternary `savedState.playlistIndex < playlists.length ? savedState.playlistIndex : 0`
used both by `getStatus` and by the player-connect handler. -/
def clampPlaylistIndex (idx : Int) (numPlaylists : Nat) : Int :=
  if idx < numPlaylists then idx else 0

/-- JS array indexing `playlists[i]`; out-of-range access yields a
sentinel entry (in JS it would be `undefined`). -/
def playlistAt (l : List PlaylistEntry) (i : Int) : PlaylistEntry :=
  if 0 ≤ i then l.getD i.toNat ⟨"", Option.none⟩ else ⟨"", Option.none⟩

/-- JS `x || 0` on a non-negative rational. -/
def jsOrZero (q : ℚ) : ℚ :=
  if q = 0 then 0 else q

/-- Model of JS `s || ""` (or-else with the empty string). -/
def jsOrEmpty (s : String) : String :=
  if s = "" then "" else s

/-- Model of `resetRecovery()`: when a recovery was in progress, notify resume
with the persisted position; always clear step and timer. -/
def resetRecovery (s : EngineState) : EngineState × List EngineAction :=
  let acts :=
    if s.recoveryStep ≠ RecoveryStep.none then
      [EngineAction.notifyResume s.stateMan.current.videoIndex s.stateMan.current.videoId]
    else []
  ({ s with recoveryStep := RecoveryStep.none, recoveryTimer := Option.none }, acts)

/-- Model of `executeStep(step)`: record the step, notify, perform the per-step
action and arm the follow-up timer (`scheduleNextStep` /
the 60 s restart in `CriticalAlert`). -/
def executeStep (cfg : AppConfig) (s : EngineState) (step : RecoveryStep) :
    EngineState × List EngineAction :=
  let s1 : EngineState := { s with recoveryStep := step }
  let pre := [EngineAction.notifyRecovery step.str]
  match step with
  | RecoveryStep.retryCurrent =>
      ({ s1 with recoveryTimer := some (RecoveryTimerKind.nextStep RecoveryStep.refreshSource,
                                        cfg.recoveryDelayMs) },
       pre ++ [EngineAction.sendRetryCurrent])
  | RecoveryStep.refreshSource =>
      ({ s1 with recoveryTimer := some (RecoveryTimerKind.nextStep RecoveryStep.toggleVisibility,
                                        15000) },
       pre ++ [EngineAction.callRefreshBrowserSource])
  | RecoveryStep.toggleVisibility =>
      ({ s1 with recoveryTimer := some (RecoveryTimerKind.nextStep RecoveryStep.criticalAlert,
                                        15000) },
       pre ++ [EngineAction.callToggleBrowserSource])
  | RecoveryStep.criticalAlert =>
      ({ s1 with recoveryTimer := some (RecoveryTimerKind.restartSequence, 60000) },
       pre ++ [EngineAction.notifyCritical
         "All recovery steps exhausted. Player may be unresponsive. Will retry full sequence in 60s."])
  | RecoveryStep.none => (s1, pre)

/-- Model of `startRecoverySequence()` enters the escalation at `RetryCurrent`. -/
def startRecoverySequence (cfg : AppConfig) (s : EngineState) :
    EngineState × List EngineAction :=
  executeStep cfg s RecoveryStep.retryCurrent

/-- Model of `onPlayerConnect()`: reset recovery, reset non-playing counter, read
the saved state, clamp the playlist index, and send the resume
`loadPlaylist`. -/
def onPlayerConnect (cfg : AppConfig) (s : EngineState) : EngineState × List EngineAction :=
  let r1 := resetRecovery s
  let s2 : EngineState := { r1.1 with nonPlayingHeartbeats := 0 }
  let saved := s2.stateMan.current
  let playlistIndex := clampPlaylistIndex saved.playlistIndex cfg.playlists.length
  let playlist := playlistAt cfg.playlists playlistIndex
  (s2, r1.2 ++ [EngineAction.sendLoadPlaylist playlist.id saved.videoIndex
    (cfg.playlists.length == 1) (some (jsOrZero saved.currentTime))])

/-- Model of `advanceToNextPlaylist(reason)`: wrap to the next playlist, reset the
video fields, flush state immediately, clear `totalVideos`, send the new
`loadPlaylist` and reset `consecutiveErrors`.  (`reason` only feeds the
elided event log.) -/
def advanceToNextPlaylist (cfg : AppConfig) (s : EngineState) (_reason : Option String) :
    EngineState × List EngineAction :=
  let current := s.stateMan.current
  let next := Int.tmod (current.playlistIndex + 1) (cfg.playlists.length : Int)
  let playlist := playlistAt cfg.playlists next
  let patch : StatePatch :=
    { StatePatch.empty with playlistIndex := some next, videoIndex := some 0,
                            videoId := some "", currentTime := some 0 }
  let sm := (s.stateMan.update patch).flush
  ({ s with stateMan := sm, totalVideos := 0, consecutiveErrors := 0 },
   [EngineAction.sendLoadPlaylist playlist.id 0 (cfg.playlists.length == 1) Option.none])

/-- Model of `skipVideo(fromIndex, videoId, reason)`: advance the playlist when at
the last video, otherwise send `skip` to the next index, persist it and
reset `consecutiveErrors`. -/
def skipVideo (cfg : AppConfig) (s : EngineState) (fromIndex : Nat) (videoId : String)
    (reason : String) : EngineState × List EngineAction :=
  if 0 < s.totalVideos ∧ s.totalVideos ≤ fromIndex + 1 then
    advanceToNextPlaylist cfg s (some reason)
  else
    let nextIndex := if 0 < s.totalVideos then (fromIndex + 1) % s.totalVideos else fromIndex + 1
    let patch : StatePatch := { StatePatch.empty with videoIndex := some nextIndex }
    ({ s with stateMan := s.stateMan.update patch, consecutiveErrors := 0 },
     [EngineAction.notifySkip fromIndex videoId reason, EngineAction.sendSkip nextIndex])

/-- Model of `handlePlaybackError(errorCode, videoIndex, videoId)`. -/
def handlePlaybackError (cfg : AppConfig) (s : EngineState) (errorCode : Nat)
    (videoIndex : Nat) (videoId : String) : EngineState × List EngineAction :=
  if errorCode ∈ SKIP_ERROR_CODES then
    skipVideo cfg s videoIndex videoId s!"Error {errorCode} (unavailable/not embeddable)"
  else
    let s1 : EngineState := { s with consecutiveErrors := s.consecutiveErrors + 1 }
    let attempt := s1.consecutiveErrors
    let notif := EngineAction.notifyError videoIndex videoId errorCode attempt
    if cfg.maxConsecutiveErrors ≤ s1.consecutiveErrors then
      let r := skipVideo cfg s1 videoIndex videoId s!"{attempt} consecutive errors"
      ({ r.1 with consecutiveErrors := 0 }, notif :: r.2)
    else
      (s1, [notif, EngineAction.scheduleRetryCurrent cfg.recoveryDelayMs])

/-- The recovery-notification text built when a stall fires. -/
def stallMessage (stalled : Nat) (m : HeartbeatMsg) : String :=
  let floorTime := ⌊m.currentTime⌋
  let vi := m.videoIndex
  let vid := m.videoId
  s!"Stall detected — Player stalled at {floorTime}s on video #{vi} ({vid}) — no progress for {stalled} heartbeats"

/-- The recovery-notification text built when sustained low quality fires. -/
def qualityMessage (lowQ : Nat) (m : HeartbeatMsg) : String :=
  let pq := m.playbackQuality
  let vi := m.videoIndex
  let vid := m.videoId
  s!"Low quality recovery — Low quality ({pq}) sustained for {lowQ} heartbeats on video #{vi} ({vid})"

/-- The recovery-notification text built when non-playing detection fires. -/
def nonPlayingMessage (np : Nat) (m : HeartbeatMsg) : String :=
  let ps := m.playerState
  let vi := m.videoIndex
  let vid := m.videoId
  s!"Non-playing recovery — Player not playing (state {ps}) for {np} heartbeats on video #{vi} ({vid})"

/-- Heartbeat step 1 — stall detection: while claiming PLAYING with
positive time, no progress (< 1 s movement) increments
`stalledHeartbeats` and fires recovery at the threshold; progress resets
the counter, records it, and cancels any recovery.  Outside that, the
counter resets and recovery is cancelled once PLAYING is seen. -/
def hbStallPhase (cfg : AppConfig) (s : EngineState) (m : HeartbeatMsg) :
    EngineState × List EngineAction :=
  if m.playerState = 1 ∧ 0 < m.currentTime then
    if |m.currentTime - s.lastProgressTime| < 1 then
      let s1 : EngineState := { s with stalledHeartbeats := s.stalledHeartbeats + 1 }
      if STALL_THRESHOLD ≤ s1.stalledHeartbeats ∧ s1.recoveryStep = RecoveryStep.none then
        let r := startRecoverySequence cfg s1
        (r.1, EngineAction.notifyRecovery (stallMessage s1.stalledHeartbeats m) :: r.2)
      else (s1, [])
    else
      resetRecovery { s with stalledHeartbeats := 0, lastProgressTime := m.currentTime }
  else
    let s1 : EngineState := { s with stalledHeartbeats := 0, lastProgressTime := m.currentTime }
    if s1.recoveryStep ≠ RecoveryStep.none ∧ m.playerState = 1 then resetRecovery s1
    else (s1, [])

/-- Heartbeat step 2 — track `playbackQuality` for the dashboard. -/
def hbQualityTrack (s : EngineState) (m : HeartbeatMsg) : EngineState :=
  if m.playbackQuality ≠ "" then { s with playbackQuality := m.playbackQuality } else s

/-- Heartbeat step 3 — quality recovery: sustained below-minimum quality
while PLAYING fires recovery after `ceil(qualityRecoveryDelayMs / 5000)`
heartbeats. -/
def hbQualityPhase (cfg : AppConfig) (s : EngineState) (m : HeartbeatMsg) :
    EngineState × List EngineAction :=
  if cfg.qualityRecoveryEnabled ∧ m.playbackQuality ≠ "" ∧ m.playerState = 1 then
    let currentRank : Int :=
      match qualityRank m.playbackQuality with
      | some r => (r : Int)
      | Option.none => -1
    let minRank : Int :=
      match qualityRank cfg.minQuality with
      | some r => (r : Int)
      | Option.none => 3
    if 0 ≤ currentRank ∧ currentRank < minRank then
      let s1 : EngineState := { s with lowQualityHeartbeats := s.lowQualityHeartbeats + 1 }
      let threshold := (cfg.qualityRecoveryDelayMs + 4999) / 5000
      if threshold ≤ s1.lowQualityHeartbeats ∧ s1.recoveryStep = RecoveryStep.none then
        let msgText := qualityMessage s1.lowQualityHeartbeats m
        let s2 : EngineState := { s1 with lowQualityHeartbeats := 0 }
        let r := startRecoverySequence cfg s2
        (r.1, EngineAction.notifyRecovery msgText :: r.2)
      else (s1, [])
    else ({ s with lowQualityHeartbeats := 0 }, [])
  else if m.playerState ≠ 1 then ({ s with lowQualityHeartbeats := 0 }, [])
  else (s, [])

/-- The partial state written by a heartbeat: the five identity fields
always, `currentTime` only when PLAYING, PAUSED, or positive. -/
def heartbeatPatch (m : HeartbeatMsg) : StatePatch :=
  { StatePatch.empty with
    videoIndex := some m.videoIndex,
    videoId := some m.videoId,
    videoTitle := some m.videoTitle,
    videoDuration := some m.videoDuration,
    nextVideoId := some (jsOrEmpty m.nextVideoId),
    currentTime :=
      if m.playerState = 1 ∨ m.playerState = 2 ∨ 0 < m.currentTime then some m.currentTime
      else Option.none }

/-- Heartbeat step 4 — state write, skipped entirely while stalled. -/
def hbWritePhase (s : EngineState) (m : HeartbeatMsg) : EngineState :=
  if s.stalledHeartbeats < STALL_THRESHOLD then
    { s with stateMan := s.stateMan.update (heartbeatPatch m) }
  else s

/-- Heartbeat step 5 — paused auto-resume after 2 consecutive paused
heartbeats. -/
def hbPausedPhase (s : EngineState) (m : HeartbeatMsg) : EngineState × List EngineAction :=
  if m.playerState = 2 then
    let s1 : EngineState :=
      { s with consecutivePausedHeartbeats := s.consecutivePausedHeartbeats + 1 }
    if 2 ≤ s1.consecutivePausedHeartbeats then (s1, [EngineAction.sendResume]) else (s1, [])
  else ({ s with consecutivePausedHeartbeats := 0 }, [])

/-- Heartbeat step 6 — non-playing detection. -/
def hbNonPlayingPhase (cfg : AppConfig) (s : EngineState) (m : HeartbeatMsg) :
    EngineState × List EngineAction :=
  if m.playerState = 1 then ({ s with nonPlayingHeartbeats := 0 }, [])
  else if m.playerState ≠ 2 then
    let s1 : EngineState := { s with nonPlayingHeartbeats := s.nonPlayingHeartbeats + 1 }
    if NON_PLAYING_THRESHOLD ≤ s1.nonPlayingHeartbeats ∧ s1.recoveryStep = RecoveryStep.none then
      let r := startRecoverySequence cfg s1
      (r.1, EngineAction.notifyRecovery (nonPlayingMessage s1.nonPlayingHeartbeats m) :: r.2)
    else (s1, [])
  else (s, [])

/-- The `heartbeat` case of `handlePlayerMessage`, as the sequential
composition of its six steps. -/
def handleHeartbeat (cfg : AppConfig) (s : EngineState) (m : HeartbeatMsg) :
    EngineState × List EngineAction :=
  let r1 := hbStallPhase cfg s m
  let s2 := hbQualityTrack r1.1 m
  let r3 := hbQualityPhase cfg s2 m
  let s4 := hbWritePhase r3.1 m
  let r5 := hbPausedPhase s4 m
  let r6 := hbNonPlayingPhase cfg r5.1 m
  (r6.1, r1.2 ++ r3.2 ++ r5.2 ++ r6.2)

/-- The `stateChange` case of `handlePlayerMessage`. -/
def handleStateChange (cfg : AppConfig) (s : EngineState) (playerState : Int)
    (videoIndex : Nat) (videoId videoTitle : String) : EngineState × List EngineAction :=
  let patch : StatePatch :=
    { StatePatch.empty with videoIndex := some videoIndex, videoId := some videoId,
                            videoTitle := some videoTitle }
  let s1 : EngineState := { s with stateMan := s.stateMan.update patch }
  let s2 : EngineState := if playerState = 1 then { s1 with consecutiveErrors := 0 } else s1
  if playerState = 0 ∧ 0 < s2.totalVideos ∧ (videoIndex : Int) = (s2.totalVideos : Int) - 1
      ∧ 1 < cfg.playlists.length then
    advanceToNextPlaylist cfg s2 Option.none
  else (s2, [])

/-- The `playlistLoaded` case of `handlePlayerMessage`. -/
def handlePlaylistLoaded (s : EngineState) (totalVideos : Nat) :
    EngineState × List EngineAction :=
  let s1 : EngineState := { s with totalVideos := totalVideos, nonPlayingHeartbeats := 0 }
  let currentVideoIndex := s1.stateMan.current.videoIndex
  if 0 < totalVideos ∧ totalVideos ≤ currentVideoIndex then
    let patch : StatePatch := { StatePatch.empty with videoIndex := some 0 }
    ({ s1 with stateMan := s1.stateMan.update patch },
     [EngineAction.sendSkip 0])
  else (s1, [])

/-- Model of `handlePlayerMessage`: dispatch on the message type. -/
def handlePlayerMessage (cfg : AppConfig) (s : EngineState) (msg : PlayerMessage) :
    EngineState × List EngineAction :=
  match msg with
  | PlayerMessage.ready => (s, [])
  | PlayerMessage.heartbeat m => handleHeartbeat cfg s m
  | PlayerMessage.stateChange ps vi vid vt => handleStateChange cfg s ps vi vid vt
  | PlayerMessage.playlistLoaded n => handlePlaylistLoaded s n
  | PlayerMessage.error c vi vid => handlePlaybackError cfg s c vi vid

/-- The part of `getStatus()` relevant to the claims (wall-clock fields
elided). -/
structure EngineStatus where
  recoveryStep : RecoveryStep
  consecutiveErrors : Nat
  totalVideos : Nat
  playlistIndex : Int
  totalPlaylists : Nat
  currentPlaylistId : String
  playbackQuality : String
deriving DecidableEq

def getStatus (cfg : AppConfig) (s : EngineState) : EngineStatus :=
  let playlistIndex := clampPlaylistIndex s.stateMan.current.playlistIndex cfg.playlists.length
  { recoveryStep := s.recoveryStep,
    consecutiveErrors := s.consecutiveErrors,
    totalVideos := s.totalVideos,
    playlistIndex := playlistIndex,
    totalPlaylists := cfg.playlists.length,
    currentPlaylistId := (playlistAt cfg.playlists playlistIndex).id,
    playbackQuality := s.playbackQuality }

/-! ### Stream-drop restart sub-FSM (src/server/obs-client.ts) -/

def STREAM_RESTART_DELAYS : List Nat := [10000, 30000, 60000, 60000, 60000]

def MAX_STREAM_RESTART_ATTEMPTS : Nat := 5

/-- The `OBSClient` fields driving the stream-drop restart sub-FSM: the
pending restart timer (holding its delay in ms) and the attempt counter. -/
structure ObsRestartState where
  streamRestartTimer : Option Nat
  streamRestartAttempts : Nat
deriving DecidableEq

inductive ObsAction
  | notifyStreamDrop (attempt : Nat) (maxAttempts : Nat)
  | notifyStreamRestart (attempts : Nat)
  | notifyStreamRestartFailed
  | callStartStream
  | dismissDialogs
deriving DecidableEq

/-- Model of `scheduleStreamRestart()`: no-op when a restart is already pending;
emit the restart-failed callback and reset when attempts are exhausted;
otherwise arm the timer with the delay indexed by the attempt counter,
increment it, and emit the stream-drop callback. -/
def scheduleStreamRestart (s : ObsRestartState) : ObsRestartState × List ObsAction :=
  if s.streamRestartTimer.isSome then (s, [])
  else if MAX_STREAM_RESTART_ATTEMPTS ≤ s.streamRestartAttempts then
    ({ s with streamRestartAttempts := 0 }, [ObsAction.notifyStreamRestartFailed])
  else
    let delay := STREAM_RESTART_DELAYS.getD
      (min s.streamRestartAttempts (STREAM_RESTART_DELAYS.length - 1)) 0
    let s1 : ObsRestartState :=
      { streamRestartTimer := some delay,
        streamRestartAttempts := s.streamRestartAttempts + 1 }
    (s1, [ObsAction.notifyStreamDrop s1.streamRestartAttempts MAX_STREAM_RESTART_ATTEMPTS])

/-- Model of `handleStreamStateChanged(event)`: STARTED resets the backoff
(emitting the restart-success callback if this was a restart) and clears
any pending timer; STOPPED schedules a restart when `obsAutoStream` is
enabled. -/
def handleStreamStateChanged (obsAutoStream : Bool) (s : ObsRestartState)
    (outputState : String) : ObsRestartState × List ObsAction :=
  if outputState = "OBS_WEBSOCKET_OUTPUT_STARTED" then
    let acts :=
      if 0 < s.streamRestartAttempts then
        [ObsAction.notifyStreamRestart s.streamRestartAttempts, ObsAction.dismissDialogs]
      else []
    ({ streamRestartTimer := Option.none, streamRestartAttempts := 0 }, acts)
  else if outputState = "OBS_WEBSOCKET_OUTPUT_STOPPED" then
    if obsAutoStream then scheduleStreamRestart s else (s, [])
  else (s, [])

/-- The environment seen by the restart timer callback when it fires. -/
inductive RestartFireOutcome
  | notReady
  | alreadyActive
  | startIssued
  | startThrew
deriving DecidableEq

/-- The restart timer callback: clear the timer handle, bail out when
not connected / auto-stream off / player unhealthy, reset on an already
active stream, issue `StartStream`, or reschedule when the call threw. -/
def fireStreamRestartTimer (s : ObsRestartState) (outcome : RestartFireOutcome) :
    ObsRestartState × List ObsAction :=
  if s.streamRestartTimer.isNone then (s, [])
  else
    let s1 : ObsRestartState := { s with streamRestartTimer := Option.none }
    match outcome with
    | RestartFireOutcome.notReady => (s1, [])
    | RestartFireOutcome.alreadyActive => ({ s1 with streamRestartAttempts := 0 }, [])
    | RestartFireOutcome.startIssued => (s1, [ObsAction.callStartStream])
    | RestartFireOutcome.startThrew => scheduleStreamRestart s1

/-- Events driving the restart sub-FSM. `connectionClosed` is the
the `clearStreamRestartTimer()` call in the `ConnectionClosed` handler. -/
inductive ObsEvent
  | streamState (outputState : String)
  | timerFire (outcome : RestartFireOutcome)
  | connectionClosed
deriving DecidableEq

def obsStep (obsAutoStream : Bool) (s : ObsRestartState) (e : ObsEvent) :
    ObsRestartState × List ObsAction :=
  match e with
  | ObsEvent.streamState st => handleStreamStateChanged obsAutoStream s st
  | ObsEvent.timerFire o => fireStreamRestartTimer s o
  | ObsEvent.connectionClosed => ({ s with streamRestartTimer := Option.none }, [])

def obsInit : ObsRestartState :=
  { streamRestartTimer := Option.none, streamRestartAttempts := 0 }

def obsRun (obsAutoStream : Bool) (s : ObsRestartState) (es : List ObsEvent) :
    ObsRestartState :=
  es.foldl (fun st e => (obsStep obsAutoStream st e).1) s

/-! ### Player transport (src/server/websocket.ts) -/

/-- Effects of the transport: invoking the registered callbacks, sending
a frame on a socket, or closing a socket.  Sockets are identified by
numbers. -/
inductive WsAction
  | fireOnConnect
  | fireOnDisconnect
  | sendFrame (socket : Nat)
  | closeSocket (socket : Nat)
deriving DecidableEq

/-- Model of `PlayerWebSocket` private state: the current client socket. -/
structure WsState where
  client : Option Nat
deriving DecidableEq

/-- Model of the wss connection handler: record the new socket as the
client and invoke `onConnect`.  (The prior client, if any, is neither
closed nor detached.) -/
def wsHandleConnection (_s : WsState) (ws : Nat) : WsState × List WsAction :=
  ({ client := some ws }, [WsAction.fireOnConnect])

/-- The per-socket `close` handler: null the client only when the closing
socket is still the current client; always invoke `onDisconnect`. -/
def wsHandleClose (s : WsState) (ws : Nat) : WsState × List WsAction :=
  ({ client := if s.client = some ws then Option.none else s.client },
   [WsAction.fireOnDisconnect])

/-- Model of `send(msg)`: deliver to the current client when open, else drop.
`openSockets` abstracts which sockets have `readyState === OPEN`. -/
def wsSend (s : WsState) (openSockets : List Nat) : List WsAction :=
  match s.client with
  | some c => if c ∈ openSockets then [WsAction.sendFrame c] else []
  | Option.none => []

/-! ### Concrete fixtures used by witnesses and counterexamples -/

def cfgNotif : NotifierCfg :=
  { webhookUrl := "https://discord.example/webhook", botName := "", avatarUrl := "",
    rolePing := "123456789", adminUrl := "http://localhost:7654/admin", appVersion := "1.0.0" }

def stNotifEmpty : NotifierState :=
  { queue := [], flushTimer := false }

def stNotifTwo : NotifierState :=
  { queue := [⟨"A", Level.info, Option.none⟩, ⟨"B", Level.warn, Option.none⟩],
    flushTimer := true }

def cfgTwoPlaylists : AppConfig :=
  { playlists := [⟨"PLA", Option.none⟩, ⟨"PLB", Option.none⟩],
    maxConsecutiveErrors := 3, recoveryDelayMs := 5000, heartbeatTimeoutMs := 15000,
    qualityRecoveryEnabled := false, minQuality := "hd1080", qualityRecoveryDelayMs := 60000 }

def psSample : PersistedState :=
  { playlistIndex := 1, videoIndex := 4, videoId := "abc", videoTitle := "",
    currentTime := 42, videoDuration := 0, nextVideoId := "" }

def smSample : StateMan :=
  { current := psSample, disk := psSample, debouncePending := false }

def engSample : EngineState :=
  { consecutiveErrors := 0, recoveryStep := RecoveryStep.none, recoveryTimer := Option.none,
    totalVideos := 3, consecutivePausedHeartbeats := 0, lastProgressTime := 17,
    stalledHeartbeats := 0, playbackQuality := "", lowQualityHeartbeats := 0,
    nonPlayingHeartbeats := 0, stateMan := smSample }

def hbStalled : HeartbeatMsg :=
  { videoIndex := 4, videoId := "abc", videoTitle := "T", playerState := 1,
    currentTime := 17, videoDuration := 100, nextVideoId := "", playbackQuality := "" }

def smNegative : StateMan :=
  { current := { psSample with playlistIndex := -1 }, disk := psSample,
    debouncePending := false }

def engNegative : EngineState :=
  { engSample with stateMan := smNegative }

/-- Recognizer for `loadPlaylist` sends, used to count them. -/
def isLoadPlaylist : EngineAction → Bool
  | EngineAction.sendLoadPlaylist _ _ _ _ => true
  | _ => false

def hbProgress : HeartbeatMsg :=
  { hbStalled with currentTime := 19 }

def obsExhausted : ObsRestartState :=
  { streamRestartTimer := Option.none, streamRestartAttempts := 5 }

/-! ## Theorems -/

/-! ### Notifier lemmas -/

theorem send_nonerror_eq (cfg : NotifierCfg) (u : Nat) (st : NotifierState)
    (content : String) (level : Level) (fields : Option (List EmbedField))
    (hen : cfg.enabled = true) (hlvl : level ≠ Level.error) :
    send cfg u st content level fields =
      ({ queue := st.queue ++ [⟨content, level, fields⟩], flushTimer := true }, Option.none) := by
  obtain ⟨q0, t0⟩ := st
  unfold send
  rw [hen]
  simp only [Bool.not_true, Bool.false_eq_true, if_false]
  rw [if_neg hlvl]
  by_cases ht : t0 <;> simp [ht]

theorem flush_nonempty_eq (cfg : NotifierCfg) (u : Nat) (st : NotifierState)
    (hq : st.queue ≠ []) :
    flush cfg u st = ({ queue := [], flushTimer := false }, some (flushBody cfg u st.queue)) := by
  obtain ⟨q0, t0⟩ := st
  unfold flush
  simp only at hq ⊢
  rw [if_neg hq]

theorem highestLevel_append_error (q : List QueuedMessage) (c : String)
    (f : Option (List EmbedField)) :
    highestLevel (q ++ [⟨c, Level.error, f⟩]) = Level.error := by
  unfold highestLevel
  rw [List.foldl_append]
  simp only [List.foldl_cons, List.foldl_nil]
  generalize List.foldl _ Level.info q = x
  cases x <;> simp [levelPriority]

theorem makeFooterText_some (cfg : NotifierCfg) (u : Nat) (e : String) :
    makeFooterText cfg u (some e) = e ++ " | " ++ makeFooterText cfg u Option.none := rfl

/-! ### C6 -/

/-- C6: while a webhook URL is configured, every `info`/`warn` `send`
appends its message to the FIFO queue, emits no request, and leaves the
single 5-second debounce timer pending; when the timer fires, the entire
queue is drained into exactly one outbound request whose embed carries
the color and emoji of the highest queued level, and whose footer text starts
with `"N events"` when more than one message is batched. -/
theorem claim_C6_notifier_batching (cfg : NotifierCfg) (u : Nat) (st st2 : NotifierState)
    (content : String) (level : Level) (fields : Option (List EmbedField))
    (hen : cfg.enabled = true) (hlvl : level ≠ Level.error) (hq : st2.queue ≠ []) :
    (send cfg u st content level fields).1.queue = st.queue ++ [⟨content, level, fields⟩]
    ∧ (send cfg u st content level fields).2 = Option.none
    ∧ (send cfg u st content level fields).1.flushTimer = true
    ∧ (fireDebounce cfg u st2).1.queue = []
    ∧ ∃ b e, (fireDebounce cfg u st2).2 = some b ∧ b.embeds = [e]
        ∧ e.color = levelColor (highestLevel st2.queue)
        ∧ e.title = levelEmoji (highestLevel st2.queue) ++ " StreamLoop"
        ∧ e.description = renderDescription st2.queue
        ∧ (1 < st2.queue.length →
            ∃ rest, e.footerText = s!"{st2.queue.length} events" ++ " | " ++ rest) := by
  rw [send_nonerror_eq cfg u st content level fields hen hlvl]
  have hf : fireDebounce cfg u st2 =
      ({ queue := [], flushTimer := false }, some (flushBody cfg u st2.queue)) :=
    flush_nonempty_eq cfg u st2 hq
  refine ⟨rfl, rfl, rfl, by rw [hf], ?_⟩
  refine ⟨flushBody cfg u st2.queue, flushEmbed cfg u st2.queue, by rw [hf], rfl, rfl, rfl, rfl, ?_⟩
  intro hbatch
  refine ⟨makeFooterText cfg u Option.none, ?_⟩
  show (flushEmbed cfg u st2.queue).footerText = _
  unfold flushEmbed
  simp only [if_pos hbatch]
  exact makeFooterText_some cfg u _

/-- Witness for C6 at a concrete notifier configuration and queue. -/
theorem claim_C6_witness :
    cfgNotif.enabled = true ∧ Level.warn ≠ Level.error ∧ stNotifTwo.queue ≠ []
    ∧ (send cfgNotif 0 stNotifEmpty "A" Level.warn Option.none).1.flushTimer = true
    ∧ (fireDebounce cfgNotif 0 stNotifTwo).1.queue = [] := by
  have h := claim_C6_notifier_batching cfgNotif 0 stNotifEmpty stNotifTwo "A" Level.warn
    Option.none (by decide) (by decide) (by decide)
  exact ⟨by decide, by decide, by decide, h.2.2.1, h.2.2.2.1⟩

/-! ### C7 -/

/-- C7: an `error`-level `send` immediately flushes the whole queue —
the error message plus every previously queued message — in one request,
and (given a configured role-mention string) the mention appears on the
outbound `content` iff the highest message level of that flush is `error`. -/
theorem claim_C7_error_flush_role_mention (cfg : NotifierCfg) (u : Nat)
    (st st2 : NotifierState) (content : String) (fields : Option (List EmbedField))
    (hen : cfg.enabled = true) (hrole : cfg.rolePing ≠ "") (hq2 : st2.queue ≠ []) :
    (send cfg u st content Level.error fields).1.queue = []
    ∧ (∃ b, (send cfg u st content Level.error fields).2 = some b
        ∧ (∃ e, b.embeds = [e]
            ∧ e.description = renderDescription (st.queue ++ [⟨content, Level.error, fields⟩]))
        ∧ b.content = some (roleMention cfg.rolePing))
    ∧ (∃ b2, (flush cfg u st2).2 = some b2
        ∧ (b2.content.isSome = true ↔ highestLevel st2.queue = Level.error)) := by
  obtain ⟨q0, t0⟩ := st
  have hsend : send cfg u ⟨q0, t0⟩ content Level.error fields =
      flush cfg u ⟨q0 ++ [⟨content, Level.error, fields⟩], t0⟩ := by
    unfold send
    rw [hen]
    simp only [Bool.not_true, Bool.false_eq_true, if_false, if_true, eq_self_iff_true]
  have hne : (⟨q0 ++ [⟨content, Level.error, fields⟩], t0⟩ : NotifierState).queue ≠ [] := by
    simp
  rw [hsend, flush_nonempty_eq cfg u _ hne]
  refine ⟨rfl, ⟨flushBody cfg u _, rfl, ⟨flushEmbed cfg u _, rfl, rfl⟩, ?_⟩, ?_⟩
  · show (if highestLevel (q0 ++ [⟨content, Level.error, fields⟩]) = Level.error
        ∧ cfg.rolePing ≠ "" then some (roleMention cfg.rolePing) else Option.none) = _
    rw [if_pos ⟨highestLevel_append_error q0 content fields, hrole⟩]
  · rw [flush_nonempty_eq cfg u st2 hq2]
    refine ⟨flushBody cfg u st2.queue, rfl, ?_⟩
    show (if highestLevel st2.queue = Level.error ∧ cfg.rolePing ≠ ""
        then some (roleMention cfg.rolePing) else Option.none).isSome = true ↔ _
    by_cases hhl : highestLevel st2.queue = Level.error
    · rw [if_pos ⟨hhl, hrole⟩]
      simp [hhl]
    · rw [if_neg (fun h => hhl h.1)]
      simp [hhl]

/-- Witness for C7 at a concrete notifier configuration and queue. -/
theorem claim_C7_witness :
    cfgNotif.enabled = true ∧ cfgNotif.rolePing ≠ "" ∧ stNotifTwo.queue ≠ []
    ∧ (send cfgNotif 0 stNotifTwo "urgent" Level.error Option.none).1.queue = [] := by
  have h := claim_C7_error_flush_role_mention cfgNotif 0 stNotifTwo stNotifTwo "urgent"
    Option.none (by decide) (by decide) (by decide)
  exact ⟨by decide, by decide, by decide, h.1⟩

/-! ### Engine lemmas -/

theorem jsOrZero_eq (q : ℚ) : jsOrZero q = q := by
  by_cases h : q = 0 <;> simp [jsOrZero, h]

theorem resetRecovery_filter_loadPlaylist (s : EngineState) :
    (resetRecovery s).2.filter isLoadPlaylist = [] := by
  unfold resetRecovery
  by_cases h : s.recoveryStep ≠ RecoveryStep.none <;> simp [h, isLoadPlaylist]

theorem resetRecovery_stateMan (s : EngineState) :
    (resetRecovery s).1.stateMan = s.stateMan := rfl

/-! ### C1 -/

/-- C1: each player-connect sends exactly one `loadPlaylist`; its
`playlistId` is the id of the configured playlist at the saved (clamped)
`playlistIndex`, its `index` is the saved `videoIndex`, its `loop` flag
is `playlists.length == 1`, and its `startTime` is the saved
`currentTime`. -/
theorem claim_C1_connect_loadPlaylist (cfg : AppConfig) (s : EngineState)
    (hne : cfg.playlists ≠ []) (hidx : 0 ≤ s.stateMan.current.playlistIndex) :
    (onPlayerConnect cfg s).2.filter isLoadPlaylist
      = [EngineAction.sendLoadPlaylist
          (playlistAt cfg.playlists
            (clampPlaylistIndex s.stateMan.current.playlistIndex cfg.playlists.length)).id
          s.stateMan.current.videoIndex
          (cfg.playlists.length == 1)
          (some s.stateMan.current.currentTime)]
    ∧ 0 ≤ clampPlaylistIndex s.stateMan.current.playlistIndex cfg.playlists.length
    ∧ (clampPlaylistIndex s.stateMan.current.playlistIndex cfg.playlists.length).toNat
        < cfg.playlists.length
    ∧ cfg.playlists[(clampPlaylistIndex s.stateMan.current.playlistIndex
        cfg.playlists.length).toNat]?
      = some (playlistAt cfg.playlists
          (clampPlaylistIndex s.stateMan.current.playlistIndex cfg.playlists.length)) := by
  have hlen : 0 < cfg.playlists.length := List.length_pos.mpr hne
  have hclamp : 0 ≤ clampPlaylistIndex s.stateMan.current.playlistIndex cfg.playlists.length
      ∧ (clampPlaylistIndex s.stateMan.current.playlistIndex cfg.playlists.length).toNat
        < cfg.playlists.length := by
    unfold clampPlaylistIndex
    by_cases h : s.stateMan.current.playlistIndex < (cfg.playlists.length : Int)
    · rw [if_pos h]
      exact ⟨hidx, by omega⟩
    · rw [if_neg h]
      exact ⟨le_refl 0, by simpa using hlen⟩
  refine ⟨?_, hclamp.1, hclamp.2, ?_⟩
  · unfold onPlayerConnect
    simp only [List.filter_append, resetRecovery_filter_loadPlaylist, resetRecovery_stateMan,
      List.nil_append, List.filter_cons, isLoadPlaylist, List.filter_nil, if_true,
      jsOrZero_eq]
  · unfold playlistAt
    rw [if_pos hclamp.1]
    rw [List.getD_eq_getElem _ _ hclamp.2, List.getElem?_eq_getElem hclamp.2]

/-- Witness for C1: resuming at the concrete saved state of `engSample`
under the two-playlist configuration. -/
theorem claim_C1_witness :
    cfgTwoPlaylists.playlists ≠ [] ∧ 0 ≤ engSample.stateMan.current.playlistIndex
    ∧ (onPlayerConnect cfgTwoPlaylists engSample).2.filter isLoadPlaylist
        = [EngineAction.sendLoadPlaylist "PLB" 4 false (some (42 : ℚ))] := by
  have h := claim_C1_connect_loadPlaylist cfgTwoPlaylists engSample (by decide) (by decide)
  refine ⟨by decide, by decide, ?_⟩
  rw [h.1]
  decide

/-! ### C3 -/

/-- C3: an error whose code is in the permanent-skip set `{100, 101, 150}`
performs a skip (a `skip` message, or a playlist advance at the last
video) with reason `"Error <N> (unavailable/not embeddable)"`, and
`consecutiveErrors` is not incremented (it ends at 0). -/
theorem claim_C3_permanent_skip (cfg : AppConfig) (s : EngineState)
    (errorCode videoIndex : Nat) (videoId : String)
    (h : errorCode ∈ SKIP_ERROR_CODES) :
    handlePlaybackError cfg s errorCode videoIndex videoId
      = skipVideo cfg s videoIndex videoId s!"Error {errorCode} (unavailable/not embeddable)"
    ∧ (handlePlaybackError cfg s errorCode videoIndex videoId).1.consecutiveErrors = 0
    ∧ (handlePlaybackError cfg s errorCode videoIndex videoId).1.consecutiveErrors
        ≠ s.consecutiveErrors + 1
    ∧ ((∃ i, EngineAction.sendSkip i ∈ (handlePlaybackError cfg s errorCode videoIndex videoId).2)
        ∨ (∃ pid loop, EngineAction.sendLoadPlaylist pid 0 loop Option.none
            ∈ (handlePlaybackError cfg s errorCode videoIndex videoId).2)) := by
  have heq : handlePlaybackError cfg s errorCode videoIndex videoId
      = skipVideo cfg s videoIndex videoId s!"Error {errorCode} (unavailable/not embeddable)" := by
    unfold handlePlaybackError
    rw [if_pos h]
  have hzero : (skipVideo cfg s videoIndex videoId
      s!"Error {errorCode} (unavailable/not embeddable)").1.consecutiveErrors = 0 := by
    unfold skipVideo advanceToNextPlaylist
    by_cases hadv : 0 < s.totalVideos ∧ s.totalVideos ≤ videoIndex + 1 <;> simp [hadv]
  refine ⟨heq, by rw [heq]; exact hzero, by rw [heq, hzero]; omega, ?_⟩
  rw [heq]
  unfold skipVideo
  by_cases hadv : 0 < s.totalVideos ∧ s.totalVideos ≤ videoIndex + 1
  · rw [if_pos hadv]
    right
    refine ⟨(playlistAt cfg.playlists
        (Int.tmod (s.stateMan.current.playlistIndex + 1) (cfg.playlists.length : Int))).id,
      (cfg.playlists.length == 1), ?_⟩
    simp [advanceToNextPlaylist]
  · rw [if_neg hadv]
    left
    refine ⟨if 0 < s.totalVideos then (videoIndex + 1) % s.totalVideos else videoIndex + 1, ?_⟩
    simp

/-- Witness for C3: error 150 at the last video of `engSample`. -/
theorem claim_C3_witness :
    (150 ∈ SKIP_ERROR_CODES)
    ∧ (handlePlaybackError cfgTwoPlaylists engSample 150 2 "v").1.consecutiveErrors = 0 := by
  have h := claim_C3_permanent_skip cfgTwoPlaylists engSample 150 2 "v" (by decide)
  exact ⟨by decide, h.2.1⟩

/-! ### C4 -/

/-- C4: playlist-advance sets `playlistIndex := (old + 1) mod playlists.length`,
resets `videoIndex`/`videoId`/`currentTime`, writes the state to disk
immediately (debounce cancelled), clears `totalVideos`, sends exactly one
`loadPlaylist` with index 0 and `loop = (playlists.length == 1)`, and
resets `consecutiveErrors`. -/
theorem claim_C4_playlist_advance (cfg : AppConfig) (s : EngineState) (reason : Option String)
    (_hne : cfg.playlists ≠ []) (hidx : 0 ≤ s.stateMan.current.playlistIndex) :
    (advanceToNextPlaylist cfg s reason).1.stateMan.current.playlistIndex
      = (s.stateMan.current.playlistIndex + 1) % (cfg.playlists.length : Int)
    ∧ (advanceToNextPlaylist cfg s reason).1.stateMan.current.videoIndex = 0
    ∧ (advanceToNextPlaylist cfg s reason).1.stateMan.current.videoId = ""
    ∧ (advanceToNextPlaylist cfg s reason).1.stateMan.current.currentTime = 0
    ∧ (advanceToNextPlaylist cfg s reason).1.stateMan.disk
        = (advanceToNextPlaylist cfg s reason).1.stateMan.current
    ∧ (advanceToNextPlaylist cfg s reason).1.stateMan.debouncePending = false
    ∧ (advanceToNextPlaylist cfg s reason).1.totalVideos = 0
    ∧ (advanceToNextPlaylist cfg s reason).1.consecutiveErrors = 0
    ∧ (advanceToNextPlaylist cfg s reason).2
      = [EngineAction.sendLoadPlaylist
          (playlistAt cfg.playlists
            ((s.stateMan.current.playlistIndex + 1) % (cfg.playlists.length : Int))).id
          0 (cfg.playlists.length == 1) Option.none] := by
  have htmod : Int.tmod (s.stateMan.current.playlistIndex + 1) (cfg.playlists.length : Int)
      = (s.stateMan.current.playlistIndex + 1) % (cfg.playlists.length : Int) :=
    Int.tmod_eq_emod (by omega) (by positivity)
  unfold advanceToNextPlaylist
  simp only [htmod]
  refine ⟨?_, ?_, ?_, ?_, ?_, ?_, ?_, ?_, ?_⟩ <;> first | rfl | trivial

/-- Witness for C4 at the concrete saved state of `engSample`. -/
theorem claim_C4_witness :
    cfgTwoPlaylists.playlists ≠ [] ∧ 0 ≤ engSample.stateMan.current.playlistIndex
    ∧ (advanceToNextPlaylist cfgTwoPlaylists engSample Option.none).1.stateMan.current.playlistIndex
        = 0
    ∧ (advanceToNextPlaylist cfgTwoPlaylists engSample
        Option.none).1.stateMan.debouncePending = false := by
  have h := claim_C4_playlist_advance cfgTwoPlaylists engSample Option.none (by decide) (by decide)
  refine ⟨by decide, by decide, ?_, h.2.2.2.2.2.1⟩
  rw [h.1]
  decide

/-! ### C10 -/

/-- C10 counterexample: with a persisted `playlistIndex` of −1 (an
integer outside range, which the claim quantifies over) the clamp only
checks the upper bound, so `getStatus` reports a negative
`playlistIndex`, refuting the claim as stated. -/
theorem claim_C10_counterexample :
    ¬ (0 ≤ (getStatus cfgTwoPlaylists engNegative).playlistIndex) := by decide

/-- C10 (amended): for every persisted state with *non-negative*
`playlistIndex` and a non-empty playlist list, the `playlistIndex`
reported by `getStatus` is in `[0, totalPlaylists)`, and the clamped
index used by the player-connect handler is likewise in range; a
negative stored index is passed through unclamped. -/
theorem claim_C10_amended (cfg : AppConfig) (s : EngineState)
    (hne : cfg.playlists ≠ []) (hidx : 0 ≤ s.stateMan.current.playlistIndex) :
    0 ≤ (getStatus cfg s).playlistIndex
    ∧ (getStatus cfg s).playlistIndex < ((getStatus cfg s).totalPlaylists : Int)
    ∧ 0 ≤ clampPlaylistIndex s.stateMan.current.playlistIndex cfg.playlists.length
    ∧ clampPlaylistIndex s.stateMan.current.playlistIndex cfg.playlists.length
        < (cfg.playlists.length : Int) := by
  have hlen : 0 < cfg.playlists.length := List.length_pos.mpr hne
  have hb : 0 ≤ clampPlaylistIndex s.stateMan.current.playlistIndex cfg.playlists.length
      ∧ clampPlaylistIndex s.stateMan.current.playlistIndex cfg.playlists.length
        < (cfg.playlists.length : Int) := by
    unfold clampPlaylistIndex
    by_cases h : s.stateMan.current.playlistIndex < (cfg.playlists.length : Int)
    · rw [if_pos h]
      exact ⟨hidx, h⟩
    · rw [if_neg h]
      exact ⟨le_refl 0, by exact_mod_cast hlen⟩
  exact ⟨hb.1, hb.2, hb.1, hb.2⟩

/-- Witness for the amended C10 at the concrete `engSample`. -/
theorem claim_C10_witness :
    cfgTwoPlaylists.playlists ≠ [] ∧ 0 ≤ engSample.stateMan.current.playlistIndex
    ∧ 0 ≤ (getStatus cfgTwoPlaylists engSample).playlistIndex
    ∧ (getStatus cfgTwoPlaylists engSample).playlistIndex
        < ((getStatus cfgTwoPlaylists engSample).totalPlaylists : Int) := by
  have h := claim_C10_amended cfgTwoPlaylists engSample (by decide) (by decide)
  exact ⟨by decide, by decide, h.1, h.2.1⟩

/-! ### Heartbeat phase frame lemmas -/

theorem hbStallPhase_stateMan (cfg : AppConfig) (s : EngineState) (m : HeartbeatMsg) :
    (hbStallPhase cfg s m).1.stateMan = s.stateMan := by
  simp only [hbStallPhase, startRecoverySequence, executeStep, resetRecovery]
  split_ifs <;> rfl

theorem hbQualityTrack_frame (s : EngineState) (m : HeartbeatMsg) :
    (hbQualityTrack s m).stateMan = s.stateMan
    ∧ (hbQualityTrack s m).stalledHeartbeats = s.stalledHeartbeats
    ∧ (hbQualityTrack s m).lastProgressTime = s.lastProgressTime := by
  unfold hbQualityTrack
  split_ifs <;> exact ⟨rfl, rfl, rfl⟩

theorem hbQualityPhase_frame (cfg : AppConfig) (s : EngineState) (m : HeartbeatMsg) :
    (hbQualityPhase cfg s m).1.stateMan = s.stateMan
    ∧ (hbQualityPhase cfg s m).1.stalledHeartbeats = s.stalledHeartbeats
    ∧ (hbQualityPhase cfg s m).1.lastProgressTime = s.lastProgressTime := by
  simp only [hbQualityPhase, startRecoverySequence, executeStep]
  split_ifs <;> exact ⟨rfl, rfl, rfl⟩

theorem hbWritePhase_frame (s : EngineState) (m : HeartbeatMsg) :
    (hbWritePhase s m).stalledHeartbeats = s.stalledHeartbeats
    ∧ (hbWritePhase s m).lastProgressTime = s.lastProgressTime := by
  unfold hbWritePhase
  split_ifs <;> exact ⟨rfl, rfl⟩

theorem hbWritePhase_stateMan (s : EngineState) (m : HeartbeatMsg) :
    (hbWritePhase s m).stateMan =
      if s.stalledHeartbeats < STALL_THRESHOLD then s.stateMan.update (heartbeatPatch m)
      else s.stateMan := by
  unfold hbWritePhase
  split_ifs <;> rfl

theorem hbPausedPhase_frame (s : EngineState) (m : HeartbeatMsg) :
    (hbPausedPhase s m).1.stateMan = s.stateMan
    ∧ (hbPausedPhase s m).1.stalledHeartbeats = s.stalledHeartbeats
    ∧ (hbPausedPhase s m).1.lastProgressTime = s.lastProgressTime := by
  simp only [hbPausedPhase]
  split_ifs <;> exact ⟨rfl, rfl, rfl⟩

theorem hbNonPlayingPhase_frame (cfg : AppConfig) (s : EngineState) (m : HeartbeatMsg) :
    (hbNonPlayingPhase cfg s m).1.stateMan = s.stateMan
    ∧ (hbNonPlayingPhase cfg s m).1.stalledHeartbeats = s.stalledHeartbeats
    ∧ (hbNonPlayingPhase cfg s m).1.lastProgressTime = s.lastProgressTime := by
  simp only [hbNonPlayingPhase, startRecoverySequence, executeStep]
  split_ifs <;> exact ⟨rfl, rfl, rfl⟩

theorem handleHeartbeat_decompose (cfg : AppConfig) (s : EngineState) (m : HeartbeatMsg) :
    (handleHeartbeat cfg s m).1 =
      (hbNonPlayingPhase cfg
        (hbPausedPhase
          (hbWritePhase
            (hbQualityPhase cfg (hbQualityTrack (hbStallPhase cfg s m).1 m) m).1 m) m).1 m).1 :=
  rfl

/-! ### C5 -/

/-- C5: a processed heartbeat writes no persisted field at all when the
(post-detection) `stalledHeartbeats` is at least 3; otherwise it writes
exactly the heartbeat patch: the five identity fields unconditionally,
`currentTime` iff `playerState ∈ {1, 2}` or `currentTime > 0`, and every
other persisted field — in particular `playlistIndex` — unchanged. -/
theorem claim_C5_heartbeat_write_policy (cfg : AppConfig) (s : EngineState) (m : HeartbeatMsg) :
    (handleHeartbeat cfg s m).1.stateMan
      = (if STALL_THRESHOLD ≤ (handleHeartbeat cfg s m).1.stalledHeartbeats
         then s.stateMan else s.stateMan.update (heartbeatPatch m))
    ∧ (heartbeatPatch m).videoIndex = some m.videoIndex
    ∧ (heartbeatPatch m).videoId = some m.videoId
    ∧ (heartbeatPatch m).videoTitle = some m.videoTitle
    ∧ (heartbeatPatch m).videoDuration = some m.videoDuration
    ∧ (heartbeatPatch m).nextVideoId = some (jsOrEmpty m.nextVideoId)
    ∧ ((heartbeatPatch m).currentTime = some m.currentTime
        ↔ (m.playerState = 1 ∨ m.playerState = 2 ∨ 0 < m.currentTime))
    ∧ (heartbeatPatch m).playlistIndex = Option.none
    ∧ (applyPatch s.stateMan.current (heartbeatPatch m)).playlistIndex
        = s.stateMan.current.playlistIndex := by
  refine ⟨?_, rfl, rfl, rfl, rfl, rfl, ?_, rfl, rfl⟩
  · have hA := hbStallPhase_stateMan cfg s m
    have hB := hbQualityTrack_frame (hbStallPhase cfg s m).1 m
    have hC := hbQualityPhase_frame cfg (hbQualityTrack (hbStallPhase cfg s m).1 m) m
    have hD := hbWritePhase_stateMan
      (hbQualityPhase cfg (hbQualityTrack (hbStallPhase cfg s m).1 m) m).1 m
    have hDf := hbWritePhase_frame
      (hbQualityPhase cfg (hbQualityTrack (hbStallPhase cfg s m).1 m) m).1 m
    have hE := hbPausedPhase_frame
      (hbWritePhase (hbQualityPhase cfg (hbQualityTrack (hbStallPhase cfg s m).1 m) m).1 m) m
    have hF := hbNonPlayingPhase_frame cfg
      (hbPausedPhase
        (hbWritePhase (hbQualityPhase cfg (hbQualityTrack (hbStallPhase cfg s m).1 m) m).1 m) m).1
      m
    rw [handleHeartbeat_decompose, hF.1, hE.1, hD, hF.2.1, hE.2.1, hDf.1, hC.1, hC.2.1,
      hB.1, hB.2.1, hA]
    by_cases hlt : (hbStallPhase cfg s m).1.stalledHeartbeats < STALL_THRESHOLD
    · rw [if_pos hlt, if_neg (by omega)]
    · rw [if_neg hlt, if_pos (by omega)]
  · unfold heartbeatPatch
    by_cases hc : m.playerState = 1 ∨ m.playerState = 2 ∨ 0 < m.currentTime
    · simp only [if_pos hc]
      simp [hc]
    · simp only [if_neg hc]
      simp [hc]

/-- Witness for C5 at the concrete stalled heartbeat. -/
theorem claim_C5_witness :
    (handleHeartbeat cfgTwoPlaylists engSample hbStalled).1.stateMan
      = (if STALL_THRESHOLD ≤ (handleHeartbeat cfgTwoPlaylists engSample hbStalled).1.stalledHeartbeats
         then engSample.stateMan else engSample.stateMan.update (heartbeatPatch hbStalled)) :=
  (claim_C5_heartbeat_write_policy cfgTwoPlaylists engSample hbStalled).1

/-! ### C2 helper lemmas -/

theorem heartbeat_stall_increment (cfg : AppConfig) (s : EngineState) (m : HeartbeatMsg)
    (h1 : m.playerState = 1) (h2 : 0 < m.currentTime)
    (h3 : |m.currentTime - s.lastProgressTime| < 1)
    (h4 : m.playbackQuality = "")
    (h5 : s.stalledHeartbeats + 1 < STALL_THRESHOLD) :
    handleHeartbeat cfg s m =
      ({ s with stalledHeartbeats := s.stalledHeartbeats + 1,
                stateMan := s.stateMan.update (heartbeatPatch m),
                consecutivePausedHeartbeats := 0,
                nonPlayingHeartbeats := 0 }, []) := by
  have e1 : hbStallPhase cfg s m =
      ({ s with stalledHeartbeats := s.stalledHeartbeats + 1 }, []) := by
    simp only [hbStallPhase]
    rw [if_pos ⟨h1, h2⟩, if_pos h3,
      if_neg (fun hc => absurd hc.1 (Nat.not_le.mpr h5))]
  have e2 : hbQualityTrack ({ s with stalledHeartbeats := s.stalledHeartbeats + 1 }) m =
      { s with stalledHeartbeats := s.stalledHeartbeats + 1 } := by
    simp [hbQualityTrack, h4]
  have e3 : hbQualityPhase cfg ({ s with stalledHeartbeats := s.stalledHeartbeats + 1 }) m =
      ({ s with stalledHeartbeats := s.stalledHeartbeats + 1 }, []) := by
    simp [hbQualityPhase, h4, h1]
  have e4 : hbWritePhase ({ s with stalledHeartbeats := s.stalledHeartbeats + 1 }) m =
      { s with stalledHeartbeats := s.stalledHeartbeats + 1,
               stateMan := s.stateMan.update (heartbeatPatch m) } := by
    simp only [hbWritePhase]
    rw [if_pos h5]
  have e5 : hbPausedPhase
      ({ s with stalledHeartbeats := s.stalledHeartbeats + 1,
                stateMan := s.stateMan.update (heartbeatPatch m) }) m =
      ({ s with stalledHeartbeats := s.stalledHeartbeats + 1,
                stateMan := s.stateMan.update (heartbeatPatch m),
                consecutivePausedHeartbeats := 0 }, []) := by
    simp [hbPausedPhase, h1]
  have e6 : hbNonPlayingPhase cfg
      ({ s with stalledHeartbeats := s.stalledHeartbeats + 1,
                stateMan := s.stateMan.update (heartbeatPatch m),
                consecutivePausedHeartbeats := 0 }) m =
      ({ s with stalledHeartbeats := s.stalledHeartbeats + 1,
                stateMan := s.stateMan.update (heartbeatPatch m),
                consecutivePausedHeartbeats := 0,
                nonPlayingHeartbeats := 0 }, []) := by
    simp [hbNonPlayingPhase, h1]
  simp only [handleHeartbeat, e1, e2, e3, e4, e5, e6, List.append_nil, List.nil_append]

theorem heartbeat_stall_fire (cfg : AppConfig) (s : EngineState) (m : HeartbeatMsg)
    (h1 : m.playerState = 1) (h2 : 0 < m.currentTime)
    (h3 : |m.currentTime - s.lastProgressTime| < 1)
    (h4 : m.playbackQuality = "")
    (h5 : STALL_THRESHOLD ≤ s.stalledHeartbeats + 1)
    (h6 : s.recoveryStep = RecoveryStep.none) :
    handleHeartbeat cfg s m =
      ({ s with stalledHeartbeats := s.stalledHeartbeats + 1,
                recoveryStep := RecoveryStep.retryCurrent,
                recoveryTimer := some (RecoveryTimerKind.nextStep RecoveryStep.refreshSource,
                                       cfg.recoveryDelayMs),
                consecutivePausedHeartbeats := 0,
                nonPlayingHeartbeats := 0 },
       [EngineAction.notifyRecovery (stallMessage (s.stalledHeartbeats + 1) m),
        EngineAction.notifyRecovery RecoveryStep.retryCurrent.str,
        EngineAction.sendRetryCurrent]) := by
  have e1 : hbStallPhase cfg s m =
      ({ s with stalledHeartbeats := s.stalledHeartbeats + 1,
                recoveryStep := RecoveryStep.retryCurrent,
                recoveryTimer := some (RecoveryTimerKind.nextStep RecoveryStep.refreshSource,
                                       cfg.recoveryDelayMs) },
       [EngineAction.notifyRecovery (stallMessage (s.stalledHeartbeats + 1) m),
        EngineAction.notifyRecovery RecoveryStep.retryCurrent.str,
        EngineAction.sendRetryCurrent]) := by
    simp only [hbStallPhase, startRecoverySequence, executeStep]
    rw [if_pos ⟨h1, h2⟩, if_pos h3, if_pos ⟨h5, h6⟩]
    rfl
  have e2 : hbQualityTrack
      ({ s with stalledHeartbeats := s.stalledHeartbeats + 1,
                recoveryStep := RecoveryStep.retryCurrent,
                recoveryTimer := some (RecoveryTimerKind.nextStep RecoveryStep.refreshSource,
                                       cfg.recoveryDelayMs) }) m =
      { s with stalledHeartbeats := s.stalledHeartbeats + 1,
               recoveryStep := RecoveryStep.retryCurrent,
               recoveryTimer := some (RecoveryTimerKind.nextStep RecoveryStep.refreshSource,
                                      cfg.recoveryDelayMs) } := by
    simp [hbQualityTrack, h4]
  have e3 : hbQualityPhase cfg
      ({ s with stalledHeartbeats := s.stalledHeartbeats + 1,
                recoveryStep := RecoveryStep.retryCurrent,
                recoveryTimer := some (RecoveryTimerKind.nextStep RecoveryStep.refreshSource,
                                       cfg.recoveryDelayMs) }) m =
      ({ s with stalledHeartbeats := s.stalledHeartbeats + 1,
                recoveryStep := RecoveryStep.retryCurrent,
                recoveryTimer := some (RecoveryTimerKind.nextStep RecoveryStep.refreshSource,
                                       cfg.recoveryDelayMs) }, []) := by
    simp [hbQualityPhase, h4, h1]
  have e4 : hbWritePhase
      ({ s with stalledHeartbeats := s.stalledHeartbeats + 1,
                recoveryStep := RecoveryStep.retryCurrent,
                recoveryTimer := some (RecoveryTimerKind.nextStep RecoveryStep.refreshSource,
                                       cfg.recoveryDelayMs) }) m =
      { s with stalledHeartbeats := s.stalledHeartbeats + 1,
               recoveryStep := RecoveryStep.retryCurrent,
               recoveryTimer := some (RecoveryTimerKind.nextStep RecoveryStep.refreshSource,
                                      cfg.recoveryDelayMs) } := by
    simp only [hbWritePhase]
    rw [if_neg (Nat.not_lt.mpr h5)]
  have e5 : hbPausedPhase
      ({ s with stalledHeartbeats := s.stalledHeartbeats + 1,
                recoveryStep := RecoveryStep.retryCurrent,
                recoveryTimer := some (RecoveryTimerKind.nextStep RecoveryStep.refreshSource,
                                       cfg.recoveryDelayMs) }) m =
      ({ s with stalledHeartbeats := s.stalledHeartbeats + 1,
                recoveryStep := RecoveryStep.retryCurrent,
                recoveryTimer := some (RecoveryTimerKind.nextStep RecoveryStep.refreshSource,
                                       cfg.recoveryDelayMs),
                consecutivePausedHeartbeats := 0 }, []) := by
    simp [hbPausedPhase, h1]
  have e6 : hbNonPlayingPhase cfg
      ({ s with stalledHeartbeats := s.stalledHeartbeats + 1,
                recoveryStep := RecoveryStep.retryCurrent,
                recoveryTimer := some (RecoveryTimerKind.nextStep RecoveryStep.refreshSource,
                                       cfg.recoveryDelayMs),
                consecutivePausedHeartbeats := 0 }) m =
      ({ s with stalledHeartbeats := s.stalledHeartbeats + 1,
                recoveryStep := RecoveryStep.retryCurrent,
                recoveryTimer := some (RecoveryTimerKind.nextStep RecoveryStep.refreshSource,
                                       cfg.recoveryDelayMs),
                consecutivePausedHeartbeats := 0,
                nonPlayingHeartbeats := 0 }, []) := by
    simp [hbNonPlayingPhase, h1]
  simp only [handleHeartbeat, e1, e2, e3, e4, e5, e6, List.append_nil, List.nil_append]

theorem heartbeat_progress_resets (cfg : AppConfig) (s : EngineState) (m : HeartbeatMsg)
    (h1 : m.playerState = 1) (h2 : 0 < m.currentTime)
    (h3 : 1 ≤ |m.currentTime - s.lastProgressTime|) :
    (handleHeartbeat cfg s m).1.stalledHeartbeats = 0
    ∧ (handleHeartbeat cfg s m).1.lastProgressTime = m.currentTime := by
  have hA : (hbStallPhase cfg s m).1.stalledHeartbeats = 0
      ∧ (hbStallPhase cfg s m).1.lastProgressTime = m.currentTime := by
    simp only [hbStallPhase, resetRecovery]
    rw [if_pos ⟨h1, h2⟩, if_neg (not_lt.mpr h3)]
    exact ⟨rfl, rfl⟩
  have hB := hbQualityTrack_frame (hbStallPhase cfg s m).1 m
  have hC := hbQualityPhase_frame cfg (hbQualityTrack (hbStallPhase cfg s m).1 m) m
  have hD := hbWritePhase_frame
    (hbQualityPhase cfg (hbQualityTrack (hbStallPhase cfg s m).1 m) m).1 m
  have hE := hbPausedPhase_frame
    (hbWritePhase (hbQualityPhase cfg (hbQualityTrack (hbStallPhase cfg s m).1 m) m).1 m) m
  have hF := hbNonPlayingPhase_frame cfg
    (hbPausedPhase
      (hbWritePhase (hbQualityPhase cfg (hbQualityTrack (hbStallPhase cfg s m).1 m) m).1 m) m).1
    m
  rw [handleHeartbeat_decompose, hF.2.1, hE.2.1, hD.1, hC.2.1, hB.2.1, hF.2.2, hE.2.2, hD.2,
    hC.2.2, hB.2.2]
  exact hA

/-! ### C2 -/

/-- C2: from a connected state with recovery step `None` and a zeroed
stall counter, three consecutive heartbeats claiming PLAYING with
positive, non-advancing `currentTime` (within 1 s of
`lastProgressTime`, no quality report) fire recovery: the engine enters
`RetryCurrent`, sends `retryCurrent`, and emits a recovery notification;
and any PLAYING heartbeat whose `currentTime` differs from
`lastProgressTime` by at least 1 second resets `stalledHeartbeats` to 0
and updates `lastProgressTime`. -/
theorem claim_C2_stall_fires_recovery (cfg : AppConfig) (s0 : EngineState)
    (m1 m2 m3 : HeartbeatMsg) (s : EngineState) (m : HeartbeatMsg)
    (hstep : s0.recoveryStep = RecoveryStep.none) (hst0 : s0.stalledHeartbeats = 0)
    (hm1 : m1.playerState = 1 ∧ 0 < m1.currentTime
      ∧ |m1.currentTime - s0.lastProgressTime| < 1 ∧ m1.playbackQuality = "")
    (hm2 : m2.playerState = 1 ∧ 0 < m2.currentTime
      ∧ |m2.currentTime - s0.lastProgressTime| < 1 ∧ m2.playbackQuality = "")
    (hm3 : m3.playerState = 1 ∧ 0 < m3.currentTime
      ∧ |m3.currentTime - s0.lastProgressTime| < 1 ∧ m3.playbackQuality = "")
    (hp1 : m.playerState = 1) (hp2 : 0 < m.currentTime)
    (hp3 : 1 ≤ |m.currentTime - s.lastProgressTime|) :
    (handleHeartbeat cfg (handleHeartbeat cfg (handleHeartbeat cfg s0 m1).1 m2).1 m3).1.recoveryStep
      = RecoveryStep.retryCurrent
    ∧ EngineAction.sendRetryCurrent
        ∈ (handleHeartbeat cfg (handleHeartbeat cfg (handleHeartbeat cfg s0 m1).1 m2).1 m3).2
    ∧ (∃ msgText, EngineAction.notifyRecovery msgText
        ∈ (handleHeartbeat cfg (handleHeartbeat cfg (handleHeartbeat cfg s0 m1).1 m2).1 m3).2)
    ∧ (handleHeartbeat cfg s m).1.stalledHeartbeats = 0
    ∧ (handleHeartbeat cfg s m).1.lastProgressTime = m.currentTime := by
  obtain ⟨h11, h12, h13, h14⟩ := hm1
  obtain ⟨h21, h22, h23, h24⟩ := hm2
  obtain ⟨h31, h32, h33, h34⟩ := hm3
  have e1 := heartbeat_stall_increment cfg s0 m1 h11 h12 h13 h14
    (by rw [hst0]; decide)
  have t1 : (handleHeartbeat cfg s0 m1).1 =
      { s0 with stalledHeartbeats := s0.stalledHeartbeats + 1,
                stateMan := s0.stateMan.update (heartbeatPatch m1),
                consecutivePausedHeartbeats := 0,
                nonPlayingHeartbeats := 0 } := by
    rw [e1]
  have e2 := heartbeat_stall_increment cfg
    ({ s0 with stalledHeartbeats := s0.stalledHeartbeats + 1,
               stateMan := s0.stateMan.update (heartbeatPatch m1),
               consecutivePausedHeartbeats := 0,
               nonPlayingHeartbeats := 0 }) m2 h21 h22 h23 h24
    (by show s0.stalledHeartbeats + 1 + 1 < STALL_THRESHOLD; rw [hst0]; decide)
  have t2 : (handleHeartbeat cfg
      ({ s0 with stalledHeartbeats := s0.stalledHeartbeats + 1,
                 stateMan := s0.stateMan.update (heartbeatPatch m1),
                 consecutivePausedHeartbeats := 0,
                 nonPlayingHeartbeats := 0 }) m2).1 =
      { s0 with stalledHeartbeats := s0.stalledHeartbeats + 1 + 1,
                stateMan := (s0.stateMan.update (heartbeatPatch m1)).update (heartbeatPatch m2),
                consecutivePausedHeartbeats := 0,
                nonPlayingHeartbeats := 0 } := by
    rw [e2]
  have e3 := heartbeat_stall_fire cfg
    ({ s0 with stalledHeartbeats := s0.stalledHeartbeats + 1 + 1,
               stateMan := (s0.stateMan.update (heartbeatPatch m1)).update (heartbeatPatch m2),
               consecutivePausedHeartbeats := 0,
               nonPlayingHeartbeats := 0 }) m3 h31 h32 h33 h34
    (by show STALL_THRESHOLD ≤ s0.stalledHeartbeats + 1 + 1 + 1; rw [hst0]; decide)
    (by show s0.recoveryStep = RecoveryStep.none; exact hstep)
  refine ⟨?_, ?_, ?_, (heartbeat_progress_resets cfg s m hp1 hp2 hp3).1,
    (heartbeat_progress_resets cfg s m hp1 hp2 hp3).2⟩
  · rw [t1, t2, e3]
  · rw [t1, t2, e3]
    simp
  · rw [t1, t2, e3]
    exact ⟨stallMessage (s0.stalledHeartbeats + 1 + 1 + 1) m3, by simp⟩

/-- Witness for C2: three identical stalled heartbeats at 17 s, then a
progressing heartbeat at 19 s. -/
theorem claim_C2_witness :
    engSample.recoveryStep = RecoveryStep.none ∧ engSample.stalledHeartbeats = 0
    ∧ (handleHeartbeat cfgTwoPlaylists
        (handleHeartbeat cfgTwoPlaylists
          (handleHeartbeat cfgTwoPlaylists engSample hbStalled).1 hbStalled).1
        hbStalled).1.recoveryStep = RecoveryStep.retryCurrent
    ∧ (handleHeartbeat cfgTwoPlaylists engSample hbProgress).1.stalledHeartbeats = 0 := by
  have h := claim_C2_stall_fires_recovery cfgTwoPlaylists engSample hbStalled hbStalled hbStalled
    engSample hbProgress (by decide) (by decide)
    ⟨by decide, by norm_num [hbStalled], by norm_num [hbStalled, engSample], by decide⟩
    ⟨by decide, by norm_num [hbStalled], by norm_num [hbStalled, engSample], by decide⟩
    ⟨by decide, by norm_num [hbStalled], by norm_num [hbStalled, engSample], by decide⟩
    (by decide) (by norm_num [hbProgress, hbStalled])
    (by norm_num [hbProgress, hbStalled, engSample])
  exact ⟨by decide, by decide, h.1, h.2.2.2.1⟩

/-! ### C8 helper lemmas -/

theorem scheduleStreamRestart_attempts_le (s : ObsRestartState)
    (h : s.streamRestartAttempts ≤ MAX_STREAM_RESTART_ATTEMPTS) :
    (scheduleStreamRestart s).1.streamRestartAttempts ≤ MAX_STREAM_RESTART_ATTEMPTS := by
  simp only [scheduleStreamRestart]
  split_ifs with hTimer hMax
  · exact h
  · exact Nat.zero_le _
  · exact Nat.not_le.mp hMax

theorem obsStep_attempts_le (auto : Bool) (s : ObsRestartState) (e : ObsEvent)
    (h : s.streamRestartAttempts ≤ MAX_STREAM_RESTART_ATTEMPTS) :
    (obsStep auto s e).1.streamRestartAttempts ≤ MAX_STREAM_RESTART_ATTEMPTS := by
  cases e with
  | streamState st =>
      simp only [obsStep, handleStreamStateChanged]
      split_ifs <;>
        first
          | exact Nat.zero_le _
          | exact scheduleStreamRestart_attempts_le s h
          | exact h
  | timerFire o =>
      simp only [obsStep, fireStreamRestartTimer]
      split_ifs with hNone
      · exact h
      · cases o with
        | notReady => exact h
        | alreadyActive => exact Nat.zero_le _
        | startIssued => exact h
        | startThrew => exact scheduleStreamRestart_attempts_le _ h
  | connectionClosed => exact h

theorem obsRun_attempts_le (auto : Bool) (es : List ObsEvent) :
    ∀ s : ObsRestartState, s.streamRestartAttempts ≤ MAX_STREAM_RESTART_ATTEMPTS →
      (obsRun auto s es).streamRestartAttempts ≤ MAX_STREAM_RESTART_ATTEMPTS := by
  induction es with
  | nil => exact fun s hs => hs
  | cons e rest ih => exact fun s hs => ih _ (obsStep_attempts_le auto s e hs)

/-! ### C8 -/

/-- C8: in the stream-drop restart sub-FSM with `obsAutoStream` on, the
delay before the (n+1)-st attempt is `STREAM_RESTART_DELAYS[n]`
(`[10s, 30s, 60s, 60s, 60s]`); along any event trace the attempt counter
never exceeds 5; a `STARTED` stream-state event resets the counter to 0
and cancels any pending restart timer; and scheduling with the 5
attempts exhausted emits the restart-failed notification, resets the
counter to 0, and schedules no restart. -/
theorem claim_C8_stream_restart_fsm (s t u : ObsRestartState) (n : Nat) (es : List ObsEvent)
    (hn : n < MAX_STREAM_RESTART_ATTEMPTS)
    (hs : s.streamRestartTimer = Option.none) (ha : s.streamRestartAttempts = n)
    (ht : t.streamRestartTimer = Option.none)
    (hta : t.streamRestartAttempts = MAX_STREAM_RESTART_ATTEMPTS) :
    (scheduleStreamRestart s).1.streamRestartTimer = some (STREAM_RESTART_DELAYS.getD n 0)
    ∧ (scheduleStreamRestart s).1.streamRestartAttempts = n + 1
    ∧ (scheduleStreamRestart s).2
        = [ObsAction.notifyStreamDrop (n + 1) MAX_STREAM_RESTART_ATTEMPTS]
    ∧ (obsRun true obsInit es).streamRestartAttempts ≤ MAX_STREAM_RESTART_ATTEMPTS
    ∧ (handleStreamStateChanged true u "OBS_WEBSOCKET_OUTPUT_STARTED").1.streamRestartAttempts = 0
    ∧ (handleStreamStateChanged true u
        "OBS_WEBSOCKET_OUTPUT_STARTED").1.streamRestartTimer = Option.none
    ∧ (scheduleStreamRestart t).2 = [ObsAction.notifyStreamRestartFailed]
    ∧ (scheduleStreamRestart t).1.streamRestartAttempts = 0
    ∧ (scheduleStreamRestart t).1.streamRestartTimer = Option.none := by
  have hn' : n ≤ STREAM_RESTART_DELAYS.length - 1 := by
    simp only [MAX_STREAM_RESTART_ATTEMPTS] at hn
    simp only [STREAM_RESTART_DELAYS, List.length]
    omega
  have hsched : scheduleStreamRestart s =
      ({ streamRestartTimer := some (STREAM_RESTART_DELAYS.getD n 0),
         streamRestartAttempts := n + 1 },
       [ObsAction.notifyStreamDrop (n + 1) MAX_STREAM_RESTART_ATTEMPTS]) := by
    simp only [scheduleStreamRestart]
    rw [if_neg (by simp [hs]), if_neg (by rw [ha]; exact Nat.not_le.mpr hn)]
    simp [ha, Nat.min_eq_left hn']
  have hexh : scheduleStreamRestart t =
      ({ t with streamRestartAttempts := 0 }, [ObsAction.notifyStreamRestartFailed]) := by
    simp only [scheduleStreamRestart]
    rw [if_neg (by simp [ht]), if_pos hta.ge]
  have hstart : (handleStreamStateChanged true u "OBS_WEBSOCKET_OUTPUT_STARTED").1 =
      { streamRestartTimer := Option.none, streamRestartAttempts := 0 } := by
    simp [handleStreamStateChanged]
  refine ⟨by rw [hsched], by rw [hsched], by rw [hsched],
    obsRun_attempts_le true es obsInit (by decide),
    by rw [hstart], by rw [hstart], by rw [hexh], by rw [hexh], by rw [hexh]; exact ht⟩

/-- Witness for C8: the first drop schedules a 10 s restart; the
exhausted state fires the failure notification. -/
theorem claim_C8_witness :
    obsInit.streamRestartTimer = Option.none ∧ obsInit.streamRestartAttempts = 0
    ∧ obsExhausted.streamRestartTimer = Option.none
    ∧ obsExhausted.streamRestartAttempts = MAX_STREAM_RESTART_ATTEMPTS
    ∧ (scheduleStreamRestart obsInit).1.streamRestartTimer = some 10000
    ∧ (scheduleStreamRestart obsExhausted).2 = [ObsAction.notifyStreamRestartFailed] := by
  have h := claim_C8_stream_restart_fsm obsInit obsExhausted obsInit 0
    [ObsEvent.streamState "OBS_WEBSOCKET_OUTPUT_STOPPED", ObsEvent.timerFire
      RestartFireOutcome.startThrew]
    (by decide) (by decide) (by decide) (by decide) (by decide)
  refine ⟨by decide, by decide, by decide, by decide, ?_, h.2.2.2.2.2.2.1⟩
  rw [h.1]
  decide

/-! ### C9 -/

/-- C9 counterexample: with a prior client (socket 0) still connected, a
new connection (socket 1) replaces it as the `send` destination, but the
transport issues no close for socket 0 — refuting the claim that the
replaced socket is closed. -/
theorem claim_C9_counterexample :
    (wsHandleConnection { client := some 0 } 1).1.client = some 1
    ∧ WsAction.closeSocket 0 ∉ (wsHandleConnection { client := some 0 } 1).2 := by
  decide

/-- C9 (amended): a newly accepted connection replaces the prior client
as the destination of `send`, but the connection handler issues no close
at all — the prior socket is left open (it is only detached lazily when
it happens to close on its own). -/
theorem claim_C9_amended (s : WsState) (ws : Nat) (openSockets : List Nat)
    (hopen : ws ∈ openSockets) :
    (wsHandleConnection s ws).1.client = some ws
    ∧ (∀ i : Nat, WsAction.closeSocket i ∉ (wsHandleConnection s ws).2)
    ∧ wsSend (wsHandleConnection s ws).1 openSockets = [WsAction.sendFrame ws] := by
  refine ⟨rfl, ?_, ?_⟩
  · intro i
    simp [wsHandleConnection]
  · simp [wsHandleConnection, wsSend, hopen]

/-- Witness for the amended C9 at concrete sockets. -/
theorem claim_C9_witness :
    (1 : Nat) ∈ [1] ∧ (wsHandleConnection { client := some 0 } 1).1.client = some 1
    ∧ wsSend (wsHandleConnection { client := some 0 } 1).1 [1] = [WsAction.sendFrame 1] := by
  have h := claim_C9_amended { client := some 0 } 1 [1] (by decide)
  exact ⟨by decide, h.1, h.2.2⟩

end StreamLoop
